import Mathlib

/-
Verification of the OpenLineage Spark property-injection helpers from
`airflow/providers/common/compat/openlineage/utils/spark.py` (the legacy-path
wrappers bound when the unified provider module is absent but the legacy
macros / listener surfaces are importable).

Python dicts are modelled as insertion-ordered association lists with unique
keys; `d[k] = v` replaces the value in place when the key exists and appends
otherwise, exactly as CPython dict assignment behaves, and the double-splat
merge iterates the right operand assigning each item into a copy of the left.
The transport descriptor, its config, and the auth object are modelled as
structures; Python `hasattr` probes become explicit Boolean capability flags,
and falsy values (empty string, `None`, empty mapping) are tested explicitly.
Python `int()` applied to a nonnegative float times 1000 is truncation toward
zero, modelled on rationals by `Int.tdiv` of numerator by denominator.
The fallible `context["ti"]` subscript is modelled with `Except`.
-/

namespace Spark

/-- A Python dict with string keys: an insertion-ordered association list. -/
abbrev PyDict (α : Type) := List (String × α)

/-- Python dict lookup `d[k]`, returning `none` when the key is absent.
Dicts built by the code have unique keys, so first match suffices. -/
def lookupA {α : Type} : PyDict α → String → Option α
  | [], _ => none
  | (ka, v) :: rest, k => if ka = k then some v else lookupA rest k

/-- Python dict item assignment `d[k] = v`: replaces the value in place when
the key is present, appends a new binding otherwise. -/
def dictInsert {α : Type} : PyDict α → String → α → PyDict α
  | [], k, v => [(k, v)]
  | (ka, va) :: rest, k, v =>
      if ka = k then (k, v) :: rest else (ka, va) :: dictInsert rest k v

/-- Property mappings: string keys to string values. -/
abbrev Props := PyDict String

/-- Python double-splat merge of two dicts: start from a copy of `a` and
assign every item of `b` into it, in order (last write wins). -/
def dictMerge {α : Type} (a b : PyDict α) : PyDict α :=
  b.foldl (fun acc kv => dictInsert acc kv.1 kv.2) a

/-- Lookup of the binding written last (Python dicts keep one binding per key;
for lists built by repeated `dictInsert` this is the surviving value). -/
def lookupLast {α : Type} (d : PyDict α) (k : String) : Option α :=
  lookupA d.reverse k

/-- The legacy macros surface `airflow.providers.openlineage.plugins.macros`
supplying the three external lineage lookups; the task-instance type is
opaque to the module, hence a type parameter. -/
structure MacrosEnv (TI : Type) where
  lineage_job_namespace : String
  lineage_job_name : TI → String
  lineage_run_id : TI → String

/-- The transport auth object: `has_api_key` models `hasattr(auth, "api_key")`
and `get_bearer` the result of `auth.get_bearer()` (empty string for a falsy
token). -/
structure AuthConfig where
  has_api_key : Bool
  get_bearer : String

/-- The transport config object: `has_custom_headers` models
`hasattr(config, "custom_headers")`. -/
structure TransportConfig where
  auth : AuthConfig
  has_custom_headers : Bool
  custom_headers : PyDict String

/-- The transport descriptor exposed by the listener singleton's client.
`timeout` is seconds as a rational; `compression` is `none` for Python
`None`. -/
structure Transport where
  kind : String
  url : String
  endpoint : String
  timeout : ℚ
  compression : Option String
  config : TransportConfig

/-- Python `s.startswith(p)`: `p`'s characters are an initial segment of
`s`'s. -/
def pyStartsWith (s p : String) : Bool := p.data.isPrefixOf s.data

/-- Python truthiness of an optional string (`None` and `""` are falsy). -/
def pyTruthy : Option String → Bool
  | none => false
  | some s => s ≠ ""

/-- Python `str` on an optional string (`str(None) = "None"`). -/
def pyStrOpt : Option String → String
  | none => "None"
  | some s => s

/-- Python `int()` truncation toward zero of a rational. -/
def pyInt (q : ℚ) : ℤ := Int.tdiv q.num q.den

/-- The `for key, value in custom_headers.items()` loop writing
`spark.openlineage.transport.headers.<key>` entries into the accumulating
transport-properties dict. -/
def headerFold (hs : PyDict String) (acc : Props) : Props :=
  hs.foldl
    (fun d kv => dictInsert d ("spark.openlineage.transport.headers." ++ kv.1) kv.2) acc

/-- The `transport_properties` dict as built on the `kind == "http"` path:
the four base entries, then the conditional compression, auth and
custom-header assignments. -/
def transportProps (t : Transport) : Props :=
  let transport_properties : Props :=
    [("spark.openlineage.transport.type", "http"),
     ("spark.openlineage.transport.url", t.url),
     ("spark.openlineage.transport.endpoint", t.endpoint),
     ("spark.openlineage.transport.timeoutInMillis", toString (pyInt (t.timeout * 1000)))]
  let transport_properties : Props :=
    if pyTruthy t.compression then
      dictInsert transport_properties "spark.openlineage.transport.compression"
        (pyStrOpt t.compression)
    else transport_properties
  let transport_properties : Props :=
    if t.config.auth.has_api_key && t.config.auth.get_bearer ≠ "" then
      dictInsert
        (dictInsert transport_properties "spark.openlineage.transport.auth.type" "api_key")
        "spark.openlineage.transport.auth.apiKey" t.config.auth.get_bearer
    else transport_properties
  let transport_properties : Props :=
    if t.config.has_custom_headers && !t.config.custom_headers.isEmpty then
      headerFold t.config.custom_headers transport_properties
    else transport_properties
  transport_properties

/-- `inject_parent_job_information_into_spark_properties` (legacy macros
path).  Returns `Except.error` exactly where Python raises `KeyError` on
`context["ti"]`. -/
def inject_parent_job_information_into_spark_properties {TI : Type}
    (env : MacrosEnv TI) (properties : Props) (context : PyDict TI) :
    Except String Props :=
  if properties.any (fun kv => pyStartsWith kv.1 "spark.openlineage.parent") then
    .ok properties
  else
    match lookupA context "ti" with
    | none => .error "KeyError: ti"
    | some ti =>
      let ol_parent_job_properties : Props :=
        [("spark.openlineage.parentJobNamespace", env.lineage_job_namespace),
         ("spark.openlineage.parentJobName", env.lineage_job_name ti),
         ("spark.openlineage.parentRunId", env.lineage_run_id ti)]
      .ok (dictMerge properties ol_parent_job_properties)

/-- `inject_transport_information_into_spark_properties` (legacy listener
path).  The resolved transport descriptor is passed explicitly; the context
argument is kept because the Python function takes (and ignores) it. -/
def inject_transport_information_into_spark_properties {Ctx : Type}
    (t : Transport) (properties : Props) (context : Ctx) : Props :=
  if properties.any (fun kv => pyStartsWith kv.1 "spark.openlineage.transport") then
    properties
  else if t.kind ≠ "http" then
    []
  else
    dictMerge properties (transportProps t)

/-- Concrete http transport matching the specification's example: timeout 5
seconds, no compression, no auth, no custom headers. -/
def httpTransport : Transport :=
  { kind := "http", url := "http://example.com", endpoint := "api/v1/lineage",
    timeout := 5, compression := none,
    config := { auth := { has_api_key := false, get_bearer := "" },
                has_custom_headers := false, custom_headers := [] } }

/-- Concrete non-http transport (`kind = "kafka"`). -/
def kafkaTransport : Transport := { httpTransport with kind := "kafka" }

/-- Concrete http transport whose auth config exposes `api_key` and yields a
non-empty bearer token. -/
def apiKeyTransport : Transport :=
  { httpTransport with
    config := { auth := { has_api_key := true, get_bearer := "secret-token" },
                has_custom_headers := false, custom_headers := [] } }

/-- Concrete macros environment: namespace `"ns"`, job name `"job"`, run id
`"run-1"` for every task instance. -/
def sampleEnv : MacrosEnv String :=
  { lineage_job_namespace := "ns", lineage_job_name := fun _ => "job",
    lineage_run_id := fun _ => "run-1" }

/-- Concrete context whose `"ti"` entry is present. -/
def sampleCtx : PyDict String := [("ti", "task-1")]

end Spark

namespace Spark

theorem lookupA_dictInsert {α : Type} (d : PyDict α) (k : String) (v : α) (k' : String) :
    lookupA (dictInsert d k v) k' = if k = k' then some v else lookupA d k' := by
  induction d with
  | nil => simp [dictInsert, lookupA]
  | cons hd tl ih =>
    obtain ⟨a, b⟩ := hd
    by_cases hak : a = k
    · subst hak
      by_cases h2 : a = k' <;> simp [dictInsert, lookupA, h2]
    · by_cases h2 : a = k'
      · subst h2
        have hka : ¬ k = a := fun h => hak h.symm
        simp [dictInsert, lookupA, hak, hka]
      · simp [dictInsert, lookupA, hak, h2, ih]

theorem lookupA_append {α : Type} (l₁ l₂ : PyDict α) (k : String) :
    lookupA (l₁ ++ l₂) k =
      match lookupA l₁ k with
      | some v => some v
      | none => lookupA l₂ k := by
  induction l₁ with
  | nil => simp [lookupA]
  | cons hd tl ih =>
    obtain ⟨a, b⟩ := hd
    by_cases hak : a = k <;> simp [lookupA, hak, ih]

theorem lookupLast_dictInsert_ne {α : Type} (d : PyDict α) (k' : String) (v : α)
    (k : String) (h : k' ≠ k) :
    lookupLast (dictInsert d k' v) k = lookupLast d k := by
  induction d with
  | nil => simp [dictInsert, lookupLast, lookupA, h]
  | cons hd tl ih =>
    obtain ⟨a, b⟩ := hd
    by_cases hak : a = k'
    · subst hak
      simp [dictInsert, lookupLast, lookupA_append, lookupA, h]
    · simp only [dictInsert, hak, if_false, lookupLast, List.reverse_cons, lookupA_append]
      rw [show lookupA (dictInsert tl k' v).reverse k = lookupLast (dictInsert tl k' v) k from rfl,
        ih]
      rfl

theorem dictInsert_eq_append {α : Type} (d : PyDict α) (k : String) (v : α)
    (h : lookupA d k = none) : dictInsert d k v = d ++ [(k, v)] := by
  induction d with
  | nil => simp [dictInsert]
  | cons hd tl ih =>
    obtain ⟨a, b⟩ := hd
    by_cases hak : a = k
    · simp [lookupA, hak] at h
    · simp only [lookupA, hak, if_false] at h
      simp [dictInsert, hak, ih h]

theorem lookupLast_dictInsert_self {α : Type} (d : PyDict α) (k : String) (v : α)
    (h : lookupA d k = none) : lookupLast (dictInsert d k v) k = some v := by
  rw [dictInsert_eq_append d k v h]
  simp [lookupLast, lookupA]

theorem lookupA_dictMerge {α : Type} (b a : PyDict α) (k : String) :
    lookupA (dictMerge a b) k =
      match lookupLast b k with
      | some v => some v
      | none => lookupA a k := by
  induction b generalizing a with
  | nil => simp [dictMerge, lookupLast, lookupA]
  | cons kv tl ih =>
    obtain ⟨kb, vb⟩ := kv
    have hstep : dictMerge a ((kb, vb) :: tl) = dictMerge (dictInsert a kb vb) tl := rfl
    rw [hstep, ih]
    have hlast : lookupLast ((kb, vb) :: tl) k =
        match lookupLast tl k with
        | some v => some v
        | none => if kb = k then some vb else none := by
      simp [lookupLast, lookupA_append, lookupA]
    rw [hlast]
    cases h : lookupLast tl k with
    | some w => simp
    | none =>
      by_cases hk : kb = k <;> simp [lookupA_dictInsert, hk]

theorem any_true_of_lookupA {α : Type} (d : PyDict α) (k : String) (v : α) (p : String → Bool)
    (hl : lookupA d k = some v) (hp : p k = true) :
    d.any (fun kv => p kv.1) = true := by
  induction d with
  | nil => simp [lookupA] at hl
  | cons hd tl ih =>
    obtain ⟨a, b⟩ := hd
    by_cases hak : a = k
    · subst hak
      simp [List.any_cons, hp]
    · simp only [lookupA, hak, if_false] at hl
      simp [List.any_cons, ih hl]

end Spark

namespace Spark

theorem append_ne_of_nth (p k : String) (i : Nat) (c₁ c₂ : Char)
    (h₁ : p.data[i]? = some c₁) (h₂ : k.data[i]? = some c₂) (hne : c₁ ≠ c₂)
    (s : String) : p ++ s ≠ k := by
  intro he
  have hd : p.data ++ s.data = k.data := by rw [← String.data_append, he]
  have hlen : i < p.data.length := (List.getElem?_eq_some_iff.mp h₁).1
  have hnth : (p.data ++ s.data)[i]? = some c₁ := by
    rw [List.getElem?_append_left hlen]; exact h₁
  rw [hd, h₂] at hnth
  exact hne (Option.some.inj hnth).symm

theorem headers_ne_type (s : String) :
    "spark.openlineage.transport.headers." ++ s ≠ "spark.openlineage.transport.type" :=
  append_ne_of_nth _ _ 28 'h' 't' (by decide) (by decide) (by decide) s

theorem headers_ne_url (s : String) :
    "spark.openlineage.transport.headers." ++ s ≠ "spark.openlineage.transport.url" :=
  append_ne_of_nth _ _ 28 'h' 'u' (by decide) (by decide) (by decide) s

theorem headers_ne_endpoint (s : String) :
    "spark.openlineage.transport.headers." ++ s ≠ "spark.openlineage.transport.endpoint" :=
  append_ne_of_nth _ _ 28 'h' 'e' (by decide) (by decide) (by decide) s

theorem headers_ne_timeout (s : String) :
    "spark.openlineage.transport.headers." ++ s ≠ "spark.openlineage.transport.timeoutInMillis" :=
  append_ne_of_nth _ _ 28 'h' 't' (by decide) (by decide) (by decide) s

theorem headers_ne_auth_type (s : String) :
    "spark.openlineage.transport.headers." ++ s ≠ "spark.openlineage.transport.auth.type" :=
  append_ne_of_nth _ _ 28 'h' 'a' (by decide) (by decide) (by decide) s

theorem headers_ne_auth_apiKey (s : String) :
    "spark.openlineage.transport.headers." ++ s ≠ "spark.openlineage.transport.auth.apiKey" :=
  append_ne_of_nth _ _ 28 'h' 'a' (by decide) (by decide) (by decide) s

theorem lookupLast_headerFold (hs : PyDict String) (acc : Props) (k : String)
    (hk : ∀ s, "spark.openlineage.transport.headers." ++ s ≠ k) :
    lookupLast (headerFold hs acc) k = lookupLast acc k := by
  induction hs generalizing acc with
  | nil => rfl
  | cons kv tl ih =>
    have hstep : headerFold (kv :: tl) acc =
        headerFold tl
          (dictInsert acc ("spark.openlineage.transport.headers." ++ kv.1) kv.2) := rfl
    rw [hstep, ih, lookupLast_dictInsert_ne _ _ _ _ (hk kv.1)]

end Spark

namespace Spark

theorem lookupLast_transportProps_type (t : Transport) :
    lookupLast (transportProps t) "spark.openlineage.transport.type" = some "http" := by
  cases hc : pyTruthy t.compression <;>
  cases ha : (t.config.auth.has_api_key && decide (t.config.auth.get_bearer ≠ "")) <;>
  cases hh : (t.config.has_custom_headers && !t.config.custom_headers.isEmpty) <;>
  simp only [transportProps, hc, ha, hh, Bool.false_eq_true, if_false, if_true] <;>
  first
  | rfl
  | (rw [lookupLast_headerFold _ _ _ headers_ne_type]; rfl)

theorem lookupLast_transportProps_url (t : Transport) :
    lookupLast (transportProps t) "spark.openlineage.transport.url" = some t.url := by
  cases hc : pyTruthy t.compression <;>
  cases ha : (t.config.auth.has_api_key && decide (t.config.auth.get_bearer ≠ "")) <;>
  cases hh : (t.config.has_custom_headers && !t.config.custom_headers.isEmpty) <;>
  simp only [transportProps, hc, ha, hh, Bool.false_eq_true, if_false, if_true] <;>
  first
  | rfl
  | (rw [lookupLast_headerFold _ _ _ headers_ne_url]; rfl)

theorem lookupLast_transportProps_endpoint (t : Transport) :
    lookupLast (transportProps t) "spark.openlineage.transport.endpoint" = some t.endpoint := by
  cases hc : pyTruthy t.compression <;>
  cases ha : (t.config.auth.has_api_key && decide (t.config.auth.get_bearer ≠ "")) <;>
  cases hh : (t.config.has_custom_headers && !t.config.custom_headers.isEmpty) <;>
  simp only [transportProps, hc, ha, hh, Bool.false_eq_true, if_false, if_true] <;>
  first
  | rfl
  | (rw [lookupLast_headerFold _ _ _ headers_ne_endpoint]; rfl)

theorem lookupLast_transportProps_timeout (t : Transport) :
    lookupLast (transportProps t) "spark.openlineage.transport.timeoutInMillis" =
      some (toString (pyInt (t.timeout * 1000))) := by
  cases hc : pyTruthy t.compression <;>
  cases ha : (t.config.auth.has_api_key && decide (t.config.auth.get_bearer ≠ "")) <;>
  cases hh : (t.config.has_custom_headers && !t.config.custom_headers.isEmpty) <;>
  simp only [transportProps, hc, ha, hh, Bool.false_eq_true, if_false, if_true] <;>
  first
  | rfl
  | (rw [lookupLast_headerFold _ _ _ headers_ne_timeout]; rfl)

theorem lookupLast_transportProps_auth_type (t : Transport)
    (ha : (t.config.auth.has_api_key && decide (t.config.auth.get_bearer ≠ "")) = true) :
    lookupLast (transportProps t) "spark.openlineage.transport.auth.type" =
      some "api_key" := by
  cases hc : pyTruthy t.compression <;>
  cases hh : (t.config.has_custom_headers && !t.config.custom_headers.isEmpty) <;>
  simp only [transportProps, hc, ha, hh, Bool.false_eq_true, if_false, if_true] <;>
  first
  | rfl
  | (rw [lookupLast_headerFold _ _ _ headers_ne_auth_type]; rfl)

theorem lookupLast_transportProps_auth_apiKey (t : Transport)
    (ha : (t.config.auth.has_api_key && decide (t.config.auth.get_bearer ≠ "")) = true) :
    lookupLast (transportProps t) "spark.openlineage.transport.auth.apiKey" =
      some t.config.auth.get_bearer := by
  cases hc : pyTruthy t.compression <;>
  cases hh : (t.config.has_custom_headers && !t.config.custom_headers.isEmpty) <;>
  simp only [transportProps, hc, ha, hh, Bool.false_eq_true, if_false, if_true] <;>
  first
  | rfl
  | (rw [lookupLast_headerFold _ _ _ headers_ne_auth_apiKey]; rfl)

theorem lookupLast_transportProps_auth_type_none (t : Transport)
    (ha : (t.config.auth.has_api_key && decide (t.config.auth.get_bearer ≠ "")) = false) :
    lookupLast (transportProps t) "spark.openlineage.transport.auth.type" = none := by
  cases hc : pyTruthy t.compression <;>
  cases hh : (t.config.has_custom_headers && !t.config.custom_headers.isEmpty) <;>
  simp only [transportProps, hc, ha, hh, Bool.false_eq_true, if_false, if_true] <;>
  first
  | rfl
  | (rw [lookupLast_headerFold _ _ _ headers_ne_auth_type]; rfl)

theorem lookupLast_transportProps_auth_apiKey_none (t : Transport)
    (ha : (t.config.auth.has_api_key && decide (t.config.auth.get_bearer ≠ "")) = false) :
    lookupLast (transportProps t) "spark.openlineage.transport.auth.apiKey" = none := by
  cases hc : pyTruthy t.compression <;>
  cases hh : (t.config.has_custom_headers && !t.config.custom_headers.isEmpty) <;>
  simp only [transportProps, hc, ha, hh, Bool.false_eq_true, if_false, if_true] <;>
  first
  | rfl
  | (rw [lookupLast_headerFold _ _ _ headers_ne_auth_apiKey]; rfl)

theorem pyInt_eq_floor (q : ℚ) (h : 0 ≤ q) : pyInt q = ⌊q⌋ := by
  have hnum : 0 ≤ q.num := Rat.num_nonneg.mpr h
  have hden : (0 : ℤ) ≤ (q.den : ℤ) := Int.ofNat_nonneg _
  rw [pyInt, Rat.floor_def]
  exact Int.tdiv_eq_ediv hnum hden

end Spark

namespace Spark

/-- Claim C1: for every properties mapping containing no key prefixed
`spark.openlineage.transport`, if the resolved transport descriptor's kind is
not "http", the transport injector returns an empty mapping, discarding every
entry of the input mapping. -/
theorem claim_C1 {Ctx : Type} (t : Transport) (properties : Props) (context : Ctx)
    (hguard : properties.any
      (fun kv => pyStartsWith kv.1 "spark.openlineage.transport") = false)
    (hkind : t.kind ≠ "http") :
    inject_transport_information_into_spark_properties t properties context = [] := by
  simp [inject_transport_information_into_spark_properties, hguard, hkind]

/-- Witness for C1 at the specification's example: kind "kafka",
properties containing one entry. -/
theorem claim_C1_witness :
    inject_transport_information_into_spark_properties kafkaTransport
      [("a", "b")] (0 : Nat) = [] :=
  claim_C1 kafkaTransport [("a", "b")] 0 (by decide) (by decide)

/-- Claim C2: for a properties mapping with no key prefixed
`spark.openlineage.parent` and a context whose "ti" entry exists, the parent
injector returns the input overlaid with exactly the three parent-job keys,
valued by the external lookups. -/
theorem claim_C2 {TI : Type} (env : MacrosEnv TI) (properties : Props)
    (context : PyDict TI) (ti : TI)
    (hguard : properties.any
      (fun kv => pyStartsWith kv.1 "spark.openlineage.parent") = false)
    (hti : lookupA context "ti" = some ti) :
    inject_parent_job_information_into_spark_properties env properties context =
      .ok (dictMerge properties
        [("spark.openlineage.parentJobNamespace", env.lineage_job_namespace),
         ("spark.openlineage.parentJobName", env.lineage_job_name ti),
         ("spark.openlineage.parentRunId", env.lineage_run_id ti)]) := by
  simp [inject_parent_job_information_into_spark_properties, hguard, hti]

/-- Witness for C2 at the specification's example: empty properties, lookups
yielding "ns", "job", "run-1"; exactly the three entries result. -/
theorem claim_C2_witness :
    inject_parent_job_information_into_spark_properties sampleEnv [] sampleCtx =
      .ok [("spark.openlineage.parentJobNamespace", "ns"),
           ("spark.openlineage.parentJobName", "job"),
           ("spark.openlineage.parentRunId", "run-1")] := by
  exact claim_C2 sampleEnv [] sampleCtx "task-1" rfl rfl

/-- Claim C3: on the http path the output contains the four base transport
keys, with `timeoutInMillis` the decimal string of the floor of
`timeout * 1000`. -/
theorem claim_C3 {Ctx : Type} (t : Transport) (properties : Props) (context : Ctx)
    (hguard : properties.any
      (fun kv => pyStartsWith kv.1 "spark.openlineage.transport") = false)
    (hkind : t.kind = "http") (htime : 0 ≤ t.timeout) :
    lookupA (inject_transport_information_into_spark_properties t properties context)
        "spark.openlineage.transport.type" = some "http" ∧
    lookupA (inject_transport_information_into_spark_properties t properties context)
        "spark.openlineage.transport.url" = some t.url ∧
    lookupA (inject_transport_information_into_spark_properties t properties context)
        "spark.openlineage.transport.endpoint" = some t.endpoint ∧
    lookupA (inject_transport_information_into_spark_properties t properties context)
        "spark.openlineage.transport.timeoutInMillis" =
      some (toString ⌊t.timeout * 1000⌋) := by
  have hres : inject_transport_information_into_spark_properties t properties context =
      dictMerge properties (transportProps t) := by
    simp [inject_transport_information_into_spark_properties, hguard, hkind]
  have hq : pyInt (t.timeout * 1000) = ⌊t.timeout * 1000⌋ :=
    pyInt_eq_floor _ (mul_nonneg htime (by norm_num))
  refine ⟨?_, ?_, ?_, ?_⟩ <;> rw [hres, lookupA_dictMerge]
  · rw [lookupLast_transportProps_type]
  · rw [lookupLast_transportProps_url]
  · rw [lookupLast_transportProps_endpoint]
  · rw [lookupLast_transportProps_timeout, hq]

/-- Witness for C3 at the specification's example transport: timeout 5
seconds yields "5000". -/
theorem claim_C3_witness :
    lookupA (inject_transport_information_into_spark_properties httpTransport [] (0 : Nat))
        "spark.openlineage.transport.type" = some "http" ∧
    lookupA (inject_transport_information_into_spark_properties httpTransport [] (0 : Nat))
        "spark.openlineage.transport.url" = some "http://example.com" ∧
    lookupA (inject_transport_information_into_spark_properties httpTransport [] (0 : Nat))
        "spark.openlineage.transport.endpoint" = some "api/v1/lineage" ∧
    lookupA (inject_transport_information_into_spark_properties httpTransport [] (0 : Nat))
        "spark.openlineage.transport.timeoutInMillis" = some "5000" := by
  obtain ⟨h1, h2, h3, h4⟩ := claim_C3 httpTransport [] 0 rfl rfl (by decide)
  refine ⟨h1, h2, h3, ?_⟩
  rw [h4]
  rw [show (httpTransport.timeout * 1000 : ℚ) = ((5000 : ℤ) : ℚ) by
    norm_num [httpTransport]]
  rw [Int.floor_intCast]
  decide

/-- Claim C4: a properties mapping already containing a key prefixed
`spark.openlineage.parent` is returned unchanged by the parent injector, for
every environment and context. -/
theorem claim_C4 {TI : Type} (env : MacrosEnv TI) (properties : Props)
    (context : PyDict TI)
    (hguard : properties.any
      (fun kv => pyStartsWith kv.1 "spark.openlineage.parent") = true) :
    inject_parent_job_information_into_spark_properties env properties context =
      .ok properties := by
  simp [inject_parent_job_information_into_spark_properties, hguard]

/-- Witness for C4: a mapping holding `spark.openlineage.parentRunId`, with a
context lacking "ti" (no lookup is performed). -/
theorem claim_C4_witness :
    inject_parent_job_information_into_spark_properties sampleEnv
      [("spark.openlineage.parentRunId", "x")] [] =
      .ok [("spark.openlineage.parentRunId", "x")] :=
  claim_C4 sampleEnv [("spark.openlineage.parentRunId", "x")] [] (by decide)

/-- Claim C5: a properties mapping already containing a key prefixed
`spark.openlineage.transport` is returned unchanged by the transport
injector, for every transport descriptor and context. -/
theorem claim_C5 {Ctx : Type} (t : Transport) (properties : Props) (context : Ctx)
    (hguard : properties.any
      (fun kv => pyStartsWith kv.1 "spark.openlineage.transport") = true) :
    inject_transport_information_into_spark_properties t properties context =
      properties := by
  simp [inject_transport_information_into_spark_properties, hguard]

/-- Witness for C5: a mapping holding `spark.openlineage.transport.type`
survives unchanged even under a non-http transport. -/
theorem claim_C5_witness :
    inject_transport_information_into_spark_properties kafkaTransport
      [("spark.openlineage.transport.type", "console")] (0 : Nat) =
      [("spark.openlineage.transport.type", "console")] :=
  claim_C5 kafkaTransport [("spark.openlineage.transport.type", "console")] 0 (by decide)

/-- Claim C6: both injectors are idempotent: a second application to the
first application's output is the identity, including the non-http
empty-mapping branch of the transport injector. -/
theorem claim_C6 {TI Ctx : Type} (env : MacrosEnv TI) (p : Props)
    (context : PyDict TI) (t : Transport) (q : Props) (c : Ctx) :
    (∀ out, inject_parent_job_information_into_spark_properties env p context = .ok out →
      inject_parent_job_information_into_spark_properties env out context = .ok out) ∧
    inject_transport_information_into_spark_properties t
        (inject_transport_information_into_spark_properties t q c) c =
      inject_transport_information_into_spark_properties t q c := by
  constructor
  · intro out hout
    cases hg : p.any (fun kv => pyStartsWith kv.1 "spark.openlineage.parent") with
    | true =>
      simp [inject_parent_job_information_into_spark_properties, hg] at hout
      subst hout
      simp [inject_parent_job_information_into_spark_properties, hg]
    | false =>
      cases hti : lookupA context "ti" with
      | none =>
        simp [inject_parent_job_information_into_spark_properties, hg, hti] at hout
      | some ti =>
        simp [inject_parent_job_information_into_spark_properties, hg, hti] at hout
        have hns : lookupA out "spark.openlineage.parentJobNamespace" =
            some env.lineage_job_namespace := by
          rw [← hout, lookupA_dictMerge]
          rfl
        have hany := any_true_of_lookupA out "spark.openlineage.parentJobNamespace" _
          (fun s => pyStartsWith s "spark.openlineage.parent") hns (by decide)
        simp [inject_parent_job_information_into_spark_properties, hany]
  · cases hg : q.any (fun kv => pyStartsWith kv.1 "spark.openlineage.transport") with
    | true =>
      simp [inject_transport_information_into_spark_properties, hg]
    | false =>
      by_cases hk : t.kind = "http"
      · have h1 : inject_transport_information_into_spark_properties t q c =
            dictMerge q (transportProps t) := by
          simp [inject_transport_information_into_spark_properties, hg, hk]
        have htype : lookupA (dictMerge q (transportProps t))
            "spark.openlineage.transport.type" = some "http" := by
          rw [lookupA_dictMerge, lookupLast_transportProps_type]
        have hany := any_true_of_lookupA (dictMerge q (transportProps t))
          "spark.openlineage.transport.type" _
          (fun s => pyStartsWith s "spark.openlineage.transport") htype (by decide)
        rw [h1]
        simp [inject_transport_information_into_spark_properties, hany]
      · have h1 : inject_transport_information_into_spark_properties t q c = [] := by
          simp [inject_transport_information_into_spark_properties, hg, hk]
        rw [h1]
        simp [inject_transport_information_into_spark_properties, hk]

/-- Witness for C6: the second parent injection on a produced three-entry
mapping and the second transport injection on a produced http mapping are
both no-ops. -/
theorem claim_C6_witness :
    inject_parent_job_information_into_spark_properties sampleEnv
      [("spark.openlineage.parentJobNamespace", "ns"),
       ("spark.openlineage.parentJobName", "job"),
       ("spark.openlineage.parentRunId", "run-1")] sampleCtx =
      .ok [("spark.openlineage.parentJobNamespace", "ns"),
           ("spark.openlineage.parentJobName", "job"),
           ("spark.openlineage.parentRunId", "run-1")] ∧
    inject_transport_information_into_spark_properties httpTransport
        (inject_transport_information_into_spark_properties httpTransport
          [("x", "y")] (0 : Nat)) (0 : Nat) =
      inject_transport_information_into_spark_properties httpTransport
        [("x", "y")] (0 : Nat) :=
  ⟨(claim_C6 sampleEnv [] sampleCtx httpTransport [("x", "y")] (0 : Nat)).1 _ rfl,
   (claim_C6 sampleEnv [] sampleCtx httpTransport [("x", "y")] (0 : Nat)).2⟩

/-- Claim C7: when the auth config exposes `api_key` and the bearer token is
non-empty, the http-path output carries auth type "api_key" and the bearer
token under the two auth keys. -/
theorem claim_C7 {Ctx : Type} (t : Transport) (properties : Props) (context : Ctx)
    (hguard : properties.any
      (fun kv => pyStartsWith kv.1 "spark.openlineage.transport") = false)
    (hkind : t.kind = "http")
    (hkey : t.config.auth.has_api_key = true)
    (htok : t.config.auth.get_bearer ≠ "") :
    lookupA (inject_transport_information_into_spark_properties t properties context)
        "spark.openlineage.transport.auth.type" = some "api_key" ∧
    lookupA (inject_transport_information_into_spark_properties t properties context)
        "spark.openlineage.transport.auth.apiKey" = some t.config.auth.get_bearer := by
  have hres : inject_transport_information_into_spark_properties t properties context =
      dictMerge properties (transportProps t) := by
    simp [inject_transport_information_into_spark_properties, hguard, hkind]
  have hcond : (t.config.auth.has_api_key && decide (t.config.auth.get_bearer ≠ ""))
      = true := by simp [hkey, htok]
  constructor <;> rw [hres, lookupA_dictMerge]
  · rw [lookupLast_transportProps_auth_type t hcond]
  · rw [lookupLast_transportProps_auth_apiKey t hcond]

/-- Witness for C7 at a transport with api_key auth and bearer token
"secret-token". -/
theorem claim_C7_witness :
    lookupA (inject_transport_information_into_spark_properties apiKeyTransport [] (0 : Nat))
        "spark.openlineage.transport.auth.type" = some "api_key" ∧
    lookupA (inject_transport_information_into_spark_properties apiKeyTransport [] (0 : Nat))
        "spark.openlineage.transport.auth.apiKey" = some "secret-token" :=
  claim_C7 apiKeyTransport [] 0 rfl rfl rfl (by decide)

/-- Claim C8: with no parent-prefixed key and a context lacking "ti", the
parent injector propagates the key-lookup error instead of producing a
result. -/
theorem claim_C8 {TI : Type} (env : MacrosEnv TI) (properties : Props)
    (context : PyDict TI)
    (hguard : properties.any
      (fun kv => pyStartsWith kv.1 "spark.openlineage.parent") = false)
    (hti : lookupA context "ti" = none) :
    inject_parent_job_information_into_spark_properties env properties context =
      .error "KeyError: ti" := by
  simp [inject_parent_job_information_into_spark_properties, hguard, hti]

/-- Witness for C8: empty properties and an empty context raise the lookup
error. -/
theorem claim_C8_witness :
    inject_parent_job_information_into_spark_properties sampleEnv [] ([] : PyDict String) =
      .error "KeyError: ti" :=
  claim_C8 sampleEnv [] [] rfl rfl

/-- Claim C9: the transport injector's result does not depend on its context
argument. -/
theorem claim_C9 {C₁ C₂ : Type} (t : Transport) (properties : Props)
    (c₁ : C₁) (c₂ : C₂) :
    inject_transport_information_into_spark_properties t properties c₁ =
      inject_transport_information_into_spark_properties t properties c₂ := rfl

/-- Claim C10: the two auth keys appear in the output only when the auth
config exposes `api_key` and the bearer token is non-empty; otherwise (and
when they are not already in the input) neither key is present. -/
theorem claim_C10 {Ctx : Type} (t : Transport) (properties : Props) (context : Ctx)
    (h1 : lookupA properties "spark.openlineage.transport.auth.type" = none)
    (h2 : lookupA properties "spark.openlineage.transport.auth.apiKey" = none)
    (hauth : t.config.auth.has_api_key = false ∨ t.config.auth.get_bearer = "") :
    lookupA (inject_transport_information_into_spark_properties t properties context)
        "spark.openlineage.transport.auth.type" = none ∧
    lookupA (inject_transport_information_into_spark_properties t properties context)
        "spark.openlineage.transport.auth.apiKey" = none := by
  have hcond : (t.config.auth.has_api_key && decide (t.config.auth.get_bearer ≠ ""))
      = false := by rcases hauth with h | h <;> simp [h]
  cases hg : properties.any
      (fun kv => pyStartsWith kv.1 "spark.openlineage.transport") with
  | true =>
    constructor <;> simp [inject_transport_information_into_spark_properties, hg, h1, h2]
  | false =>
    by_cases hk : t.kind = "http"
    · have hres : inject_transport_information_into_spark_properties t properties context =
          dictMerge properties (transportProps t) := by
        simp [inject_transport_information_into_spark_properties, hg, hk]
      constructor <;> rw [hres, lookupA_dictMerge]
      · rw [lookupLast_transportProps_auth_type_none t hcond]
        exact h1
      · rw [lookupLast_transportProps_auth_apiKey_none t hcond]
        exact h2
    · have hres : inject_transport_information_into_spark_properties t properties context =
          [] := by
        simp [inject_transport_information_into_spark_properties, hg, hk]
      rw [hres]
      exact ⟨rfl, rfl⟩

/-- Witness for C10: the example http transport exposes no api_key
attribute, so neither auth key appears. -/
theorem claim_C10_witness :
    lookupA (inject_transport_information_into_spark_properties httpTransport [] (0 : Nat))
        "spark.openlineage.transport.auth.type" = none ∧
    lookupA (inject_transport_information_into_spark_properties httpTransport [] (0 : Nat))
        "spark.openlineage.transport.auth.apiKey" = none :=
  claim_C10 httpTransport [] 0 rfl rfl (Or.inl rfl)

end Spark
